import Mathlib

/-!
Shallow embedding of the aggregation pipeline of `production_scraping.py`:
the `ConfigurationManager` thresholds, the `ContentAnalyzer` (quality
scoring, topic extraction, duplicate detection), the shared admission gate
`BaseNewsSource.create_article`, the `EnhancedRSSSource.fetch_articles`
loop, and the `ProductionOrchestrator` (per-source monitoring, merge,
global dedup, final sort).

Modelling conventions:
* Python floats are modelled as `ℚ` (every arithmetic operation used by the
  scoring code is exact at these magnitudes).
* Timestamps (`datetime` values normalised to UTC) are modelled as `Int`
  seconds since the epoch; `timedelta(hours=h)` is `3600 * h`.
* Python strings are sequences of unicode code points, exactly as Lean
  `String`; `in` on strings is infix (substring) containment of the
  character sequences.
* Fallible / exception-raising code is modelled with `Option` / `Except`.
-/

namespace Scraping

/-- The configuration entries of `ConfigurationManager._initialize_base_config`
that the aggregation pipeline reads (`config.get(...)` calls in the excerpted
code).  Field order and the values of `defaultConfig` below follow the source. -/
structure Config where
  min_word_count : Nat
  min_paragraph_count : Nat
  min_quality_score : ℚ
  time_window_hours : Int
  max_articles_per_source : Nat
  retry_attempts : Nat
  enable_deduplication : Bool
  similarity_threshold : ℚ
  content_enhancement : Bool
  deriving DecidableEq, Repr

/-- The production defaults from `_initialize_base_config`. -/
def defaultConfig : Config :=
  { min_word_count := 15
    min_paragraph_count := 1
    min_quality_score := 0.15
    time_window_hours := 24
    max_articles_per_source := 25
    retry_attempts := 3
    enable_deduplication := true
    similarity_threshold := 0.8
    content_enhancement := true }

/-- Twitter engagement metrics (`public_metrics` of a tweet); a `some` value
models the non-empty `tweet_metrics` dict the Twitter source passes, `none`
models the `None` / empty dict of article sources (both are falsy in
`if metrics:`). -/
structure TweetMetrics where
  retweet_count : Nat
  like_count : Nat
  reply_count : Nat
  quote_count : Nat
  deriving DecidableEq, Repr

/-- The `Article` dataclass.  The diagnostic fields `source_reliability` and
`processing_time` are omitted: every creation path leaves them at their
constant defaults, so they never distinguish two articles. -/
structure Article where
  title : String
  content : String
  url : String
  source : String
  published_at : Int
  scraped_at : Int
  method : String
  word_count : Nat
  paragraph_count : Nat
  quality_score : ℚ
  content_hash : String
  summary : String
  topics : List String
  tweet_metrics : Option TweetMetrics
  deriving DecidableEq, Repr

/-! String primitives.  They are written over `List Char` with structural
recursion so that every concrete witness evaluates inside the kernel; each
mirrors the CPython `str` operation named in its doc comment. -/

/-- `str.lower()` (ASCII case mapping, which covers all modelled inputs). -/
def pyLower (s : String) : String :=
  String.mk (s.toList.map Char.toLower)

/-- Splitting worker for `str.split()`: whitespace separates, runs collapse,
no empty pieces. -/
def splitWSAux : List Char → List Char → List String
  | [], acc => if acc = [] then [] else [String.mk acc.reverse]
  | c :: cs, acc =>
      if c.isWhitespace then
        if acc = [] then splitWSAux cs []
        else String.mk acc.reverse :: splitWSAux cs []
      else splitWSAux cs (c :: acc)

/-- Python `str.split()` with no separator: split on whitespace runs,
dropping empty pieces. -/
def pySplit (s : String) : List String :=
  splitWSAux s.toList []

/-- Splitting worker for `str.split(sep)` with a one-character separator:
every separator emits a piece, empties included. -/
def splitCharAux (sep : Char) : List Char → List Char → List String
  | [], acc => [String.mk acc.reverse]
  | c :: cs, acc =>
      if c = sep then String.mk acc.reverse :: splitCharAux sep cs []
      else splitCharAux sep cs (c :: acc)

/-- Python `str.split(sep)` for a single-character separator (used as
`content.split('\n')`). -/
def pySplitChar (sep : Char) (s : String) : List String :=
  splitCharAux sep s.toList []

/-- Python `str.strip()`: drop leading and trailing whitespace. -/
def pyStrip (s : String) : String :=
  String.mk
    (((s.toList.dropWhile Char.isWhitespace).reverse.dropWhile
      Char.isWhitespace).reverse)

/-- Python `len(s)`: the number of code points. -/
def pyLen (s : String) : Nat :=
  s.toList.length

/-- Python `s[:n]`: the first `n` code points. -/
def pyTake (n : Nat) (s : String) : String :=
  String.mk (s.toList.take n)

/-- Does `l` start with `pre`? -/
def startsWithList (pre l : List Char) : Bool :=
  decide (l.take pre.length = pre)

/-- Does the character sequence `sub` occur contiguously in `l`? -/
def containsList (sub : List Char) : List Char → Bool
  | [] => decide (sub = [])
  | c :: cs => startsWithList sub (c :: cs) || containsList sub cs

/-- Python `sub in s`: the character sequence of `sub` occurs contiguously
in `s`. -/
def pyIn (sub s : String) : Bool :=
  containsList sub.toList s.toList

/-- Python `s.startswith(pre)`. -/
def pyStartsWith (s pre : String) : Bool :=
  startsWithList pre.toList s.toList

/-- `ContentAnalyzer._initialize_crypto_keywords`, `high_value` tier. -/
def high_value_keywords : List String :=
  ["bitcoin", "btc", "ethereum", "eth", "cryptocurrency", "crypto",
   "blockchain", "satoshi", "vitalik", "defi", "nft"]

/-- `ContentAnalyzer._initialize_crypto_keywords`, `medium_value` tier. -/
def medium_value_keywords : List String :=
  ["trading", "market", "price", "altcoin", "binance", "coinbase",
   "exchange", "wallet", "mining", "staking", "yield", "liquidity"]

/-- `ContentAnalyzer._initialize_crypto_keywords`, `low_value` tier. -/
def low_value_keywords : List String :=
  ["investment", "investor", "bull", "bear", "rally", "crash",
   "adoption", "regulation", "sec", "government", "institutional"]

/-- `ContentAnalyzer._initialize_crypto_keywords`, `technical` tier. -/
def technical_keywords : List String :=
  ["consensus", "protocol", "smart contract", "hash rate", "node",
   "fork", "upgrade", "eip", "layer 2", "scaling", "gas", "fees"]

/-- The `analytical_indicators` list of `calculate_quality_score`. -/
def analytical_indicators : List String :=
  ["analysis", "prediction", "forecast", "trend", "pattern",
   "technical", "fundamental", "market", "data", "research"]

/-- `sum(1 for word in words if word in keywords)`: occurrences of words of
`words` that are members of the list `kws`. -/
def countKeywordWords (words : List String) (kws : List String) : Nat :=
  (words.filter (fun w => kws.contains w)).length

/-- Component 1 of `calculate_quality_score`: Length Score (0-0.3),
`min(word_count / 300, 1.0) * 0.3`. -/
def length_score (word_count : Nat) : ℚ :=
  min ((word_count : ℚ) / 300) 1 * 0.3

/-- Component 2 of `calculate_quality_score`: Crypto Relevance Score (0-0.4),
per-tier keyword-occurrence counts against saturating caps.  The four tiers
are accumulated in the dict's iteration order. -/
def relevance_score (words : List String) : ℚ :=
  min ((countKeywordWords words high_value_keywords : ℚ) / 2) 1 * 0.15 +
    min ((countKeywordWords words medium_value_keywords : ℚ) / 3) 1 * 0.12 +
    min ((countKeywordWords words low_value_keywords : ℚ) / 4) 1 * 0.08 +
    min ((countKeywordWords words technical_keywords : ℚ) / 2) 1 * 0.05

/-- Component 3 of `calculate_quality_score`: Content Structure Score (0-0.2),
base 0.1 plus bonuses for more than 100 and more than 200 words. -/
def structure_score (word_count : Nat) : ℚ :=
  0.1 + (if word_count > 100 then 0.05 else 0) +
    (if word_count > 200 then 0.05 else 0)

/-- Component 4 of `calculate_quality_score`: Content Depth/Engagement Score
(0-0.1): normalised engagement for Twitter metrics, analytical-indicator
occurrences otherwise. -/
def depth_score (words : List String) (metrics : Option TweetMetrics) : ℚ :=
  match metrics with
  | some m =>
      min (((m.retweet_count : ℚ) * 3 + (m.reply_count : ℚ) * 2 +
        (m.like_count : ℚ)) / 100) 1 * 0.1
  | none =>
      min ((countKeywordWords words analytical_indicators : ℚ) / 3) 1 * 0.1

/-- `ContentAnalyzer.calculate_quality_score`.  Four bounded components
(length, crypto relevance, structure, depth/engagement) over the split of
`f"{title} {content}".lower()`, total clamped to `1.0`; empty content
scores `0.0`. -/
def calculate_quality_score (content : String) (title : String)
    (metrics : Option TweetMetrics) : ℚ :=
  if content = "" then 0
  else
    let words := pySplit (pyLower (title ++ " " ++ content))
    min (length_score words.length + relevance_score words +
      structure_score words.length + depth_score words metrics) 1

/-- `ContentAnalyzer._initialize_topic_patterns`: the fixed topic taxonomy,
in declaration order. -/
def topic_patterns : List (String × List String) :=
  [("Bitcoin", ["bitcoin", "btc", "satoshi", "lightning", "taproot"]),
   ("Ethereum", ["ethereum", "eth", "ether", "vitalik", "eip", "gas"]),
   ("DeFi", ["defi", "decentralized finance", "yield", "liquidity", "uniswap",
             "aave", "compound"]),
   ("NFTs", ["nft", "non-fungible", "opensea", "collectible", "art", "metaverse"]),
   ("Trading", ["trading", "trade", "exchange", "volume", "technical analysis",
                "chart"]),
   ("Regulation", ["regulation", "regulatory", "sec", "government", "compliance",
                   "legal"]),
   ("Market Analysis", ["market", "price", "bull", "bear", "rally", "prediction",
                        "forecast"]),
   ("Technology", ["blockchain", "consensus", "smart contract", "protocol",
                   "upgrade", "innovation"]),
   ("Mining", ["mining", "hash rate", "proof of work", "asic", "difficulty",
               "miner"]),
   ("Institutional", ["institutional", "etf", "corporate", "adoption",
                      "investment", "fund"]),
   ("Altcoins", ["altcoin", "solana", "cardano", "polkadot", "chainlink",
                 "polygon"]),
   ("Stablecoins", ["stablecoin", "usdt", "usdc", "tether", "circle", "terra"])]

/-- The per-topic score of `extract_topics`:
`sum(2 if keyword in title.lower() else 1 for keyword in keywords if keyword in combined_text)`. -/
def topicScore (content title : String) (kws : List String) : Nat :=
  let combined := pyLower (title ++ " " ++ content)
  (kws.map (fun kw =>
    if pyIn kw combined then (if pyIn kw (pyLower title) then 2 else 1) else 0)).sum

/-- The `topic_scores` dict of `extract_topics`: topics with positive score,
in taxonomy declaration order (Python dicts preserve insertion order). -/
def scoredTopics (content title : String) : List (String × Nat) :=
  topic_patterns.filterMap (fun tp =>
    let s := topicScore content title tp.2
    if s > 0 then some (tp.1, s) else none)

/-- Insertion step of the stable descending sort: place `a` before the first
element `b` with `ge a b`. -/
def stableInsertDesc (ge : α → α → Bool) (a : α) : List α → List α
  | [] => [a]
  | b :: l => if ge a b then a :: b :: l else b :: stableInsertDesc ge a l

/-- Stable descending sort.  When `ge x y` decides `key x ≥ key y` for a total
preorder on keys, this realises CPython's stable `sorted(..., reverse=True)` /
`list.sort(..., reverse=True)`: an element is placed before exactly the later
elements whose key is not greater than its own, so elements with equal keys
keep their original relative order. -/
def stableSortDesc (ge : α → α → Bool) : List α → List α
  | [] => []
  | a :: l => stableInsertDesc ge a (stableSortDesc ge l)

/-- Comparison used by `sorted(topic_scores.items(), key=lambda x: x[1], reverse=True)`. -/
def topicGE (a b : String × Nat) : Bool := decide (b.2 ≤ a.2)

/-- `ContentAnalyzer.extract_topics`: keep positively scored topics, sort by
score descending (stable, so ties stay in declaration order), return the names
of the first five. -/
def extract_topics (content : String) (title : String) : List String :=
  ((stableSortDesc topicGE (scoredTopics content title)).take 5).map Prod.fst

/-- `re.sub(r'[^\w\s]', '', s)`: drop every character that is neither a word
character (alphanumeric or underscore) nor whitespace. -/
def stripNonWord (s : String) : String :=
  String.mk (s.toList.filter (fun c => c.isAlphanum || c = '_' || c.isWhitespace))

/-- The title token set of `is_duplicate`:
`set(re.sub(r'[^\w\s]', '', title.lower()).split())`. -/
def titleWordSet (t : String) : Finset String :=
  (pySplit (stripNonWord (pyLower t))).toFinset

/-- Jaccard similarity `|s ∩ t| / |s ∪ t|` of two token sets. -/
def jaccard (s t : Finset String) : ℚ :=
  ((s ∩ t).card : ℚ) / ((s ∪ t).card : ℚ)

/-- The `title_similarity` local of `is_duplicate`: defined only when both
token sets are non-empty (otherwise the Python local stays unbound and the
later read raises a `NameError`, swallowed by the bare `except`). -/
def titleSimilarity? (t1 t2 : String) : Option ℚ :=
  if (titleWordSet t1).Nonempty ∧ (titleWordSet t2).Nonempty then
    some (jaccard (titleWordSet t1) (titleWordSet t2))
  else none

/-- `ContentAnalyzer.is_duplicate`.  `threshold? = none` models the `None`
default that falls back to `config['similarity_threshold']`.  The time-based
branch returns `False` whenever `title_similarity` is unbound (`NameError`
caught by the bare `except`). -/
def is_duplicate (cfg : Config) (a1 a2 : Article) (threshold? : Option ℚ) : Bool :=
  let threshold := threshold?.getD cfg.similarity_threshold
  if a1.url = a2.url then true
  else if a1.content_hash = a2.content_hash then true
  else
    let sim? := titleSimilarity? a1.title a2.title
    if (match sim? with | some s => decide (threshold < s) | none => false) then
      true
    else if a1.source = a2.source then
      match sim? with
      | none => false
      | some s =>
          decide (|a1.published_at - a2.published_at| < 300) &&
            decide ((0.6 : ℚ) < s)
    else false

end Scraping

namespace MD5

/-! `hashlib.md5(content.encode()).hexdigest()`: the RFC 1321 MD5 of the
UTF-8 encoding of the content, as lowercase hex.  All 32-bit machine words
are `Nat`s reduced mod `2 ^ 32`. -/

/-- UTF-8 encoding of one code point. -/
def utf8Char (c : Char) : List Nat :=
  let n := c.toNat
  if n < 128 then [n]
  else if n < 2048 then [192 ||| (n >>> 6), 128 ||| (n &&& 63)]
  else if n < 65536 then
    [224 ||| (n >>> 12), 128 ||| ((n >>> 6) &&& 63), 128 ||| (n &&& 63)]
  else
    [240 ||| (n >>> 18), 128 ||| ((n >>> 12) &&& 63), 128 ||| ((n >>> 6) &&& 63),
     128 ||| (n &&& 63)]

/-- `str.encode()`: UTF-8 bytes of a string. -/
def utf8Bytes (s : String) : List Nat :=
  (s.toList.map utf8Char).foldr (fun a acc => a ++ acc) []

/-- Round shift amounts. -/
def shiftTable : List Nat :=
  [7, 12, 17, 22, 7, 12, 17, 22, 7, 12, 17, 22, 7, 12, 17, 22,
   5, 9, 14, 20, 5, 9, 14, 20, 5, 9, 14, 20, 5, 9, 14, 20,
   4, 11, 16, 23, 4, 11, 16, 23, 4, 11, 16, 23, 4, 11, 16, 23,
   6, 10, 15, 21, 6, 10, 15, 21, 6, 10, 15, 21, 6, 10, 15, 21]

/-- Sine-derived round constants `⌊2^32·|sin(i+1)|⌋`. -/
def sineTable : List Nat :=
  [0xd76aa478, 0xe8c7b756, 0x242070db, 0xc1bdceee,
   0xf57c0faf, 0x4787c62a, 0xa8304613, 0xfd469501,
   0x698098d8, 0x8b44f7af, 0xffff5bb1, 0x895cd7be,
   0x6b901122, 0xfd987193, 0xa679438e, 0x49b40821,
   0xf61e2562, 0xc040b340, 0x265e5a51, 0xe9b6c7aa,
   0xd62f105d, 0x02441453, 0xd8a1e681, 0xe7d3fbc8,
   0x21e1cde6, 0xc33707d6, 0xf4d50d87, 0x455a14ed,
   0xa9e3e905, 0xfcefa3f8, 0x676f02d9, 0x8d2a4c8a,
   0xfffa3942, 0x8771f681, 0x6d9d6122, 0xfde5380c,
   0xa4beea44, 0x4bdecfa9, 0xf6bb4b60, 0xbebfbc70,
   0x289b7ec6, 0xeaa127fa, 0xd4ef3085, 0x04881d05,
   0xd9d4d039, 0xe6db99e5, 0x1fa27cf8, 0xc4ac5665,
   0xf4292244, 0x432aff97, 0xab9423a7, 0xfc93a039,
   0x655b59c3, 0x8f0ccc92, 0xffeff47d, 0x85845dd1,
   0x6fa87e4f, 0xfe2ce6e0, 0xa3014314, 0x4e0811a1,
   0xf7537e82, 0xbd3af235, 0x2ad7d2bb, 0xeb86d391]

def mask32 : Nat := 4294967295

def add32 (x y : Nat) : Nat := (x + y) % 4294967296

def compl32 (x : Nat) : Nat := mask32 ^^^ x

def rotl32 (x n : Nat) : Nat := ((x <<< n) ||| (x >>> (32 - n))) &&& mask32

/-- MD5 padding: `0x80`, zeros to 56 mod 64, then the bit length as eight
little-endian bytes. -/
def padBytes (msg : List Nat) : List Nat :=
  let len := msg.length
  msg ++ 128 :: List.replicate ((119 - len % 64) % 64) 0 ++
    ((List.range 8).map (fun i => ((8 * len) >>> (8 * i)) &&& 255))

/-- The `g`-th little-endian 32-bit word of a 64-byte block. -/
def getWord (bl : List Nat) (g : Nat) : Nat :=
  bl.getD (4 * g) 0 ||| (bl.getD (4 * g + 1) 0 <<< 8) |||
    (bl.getD (4 * g + 2) 0 <<< 16) ||| (bl.getD (4 * g + 3) 0 <<< 24)

/-- One of the 64 MD5 rounds. -/
def round (bl : List Nat) (st : Nat × Nat × Nat × Nat) (i : Nat) :
    Nat × Nat × Nat × Nat :=
  let a := st.1; let b := st.2.1; let c := st.2.2.1; let d := st.2.2.2
  let fg : Nat × Nat :=
    if i < 16 then ((b &&& c) ||| (compl32 b &&& d), i)
    else if i < 32 then ((d &&& b) ||| (compl32 d &&& c), (5 * i + 1) % 16)
    else if i < 48 then (b ^^^ c ^^^ d, (3 * i + 5) % 16)
    else (c ^^^ (b ||| compl32 d), (7 * i) % 16)
  let f := (fg.1 + a + sineTable.getD i 0 + getWord bl fg.2) % 4294967296
  (d, add32 b (rotl32 f (shiftTable.getD i 0)), b, c)

/-- Process one 64-byte block. -/
def processBlock (st : Nat × Nat × Nat × Nat) (bl : List Nat) :
    Nat × Nat × Nat × Nat :=
  let r := (List.range 64).foldl (round bl) st
  (add32 st.1 r.1, add32 st.2.1 r.2.1, add32 st.2.2.1 r.2.2.1,
   add32 st.2.2.2 r.2.2.2)

/-- Split the padded message into 64-byte blocks; `fuel` bounds the recursion
(call with the list length). -/
def toBlocks (fuel : Nat) (l : List Nat) : List (List Nat) :=
  match fuel with
  | 0 => []
  | f + 1 => if l = [] then [] else l.take 64 :: toBlocks f (l.drop 64)

def hexDigitChar (n : Nat) : Char :=
  if n < 10 then Char.ofNat (48 + n) else Char.ofNat (87 + n)

def byteHex (b : Nat) : List Char :=
  [hexDigitChar (b / 16), hexDigitChar (b % 16)]

def wordLEBytes (w : Nat) : List Nat :=
  [w &&& 255, (w >>> 8) &&& 255, (w >>> 16) &&& 255, (w >>> 24) &&& 255]

/-- `hashlib.md5(bytes).hexdigest()`. -/
def md5Hex (msg : List Nat) : String :=
  let p := padBytes msg
  let st := (toBlocks p.length p).foldl processBlock
    (0x67452301, 0xefcdab89, 0x98badcfe, 0x10325476)
  String.mk
    (((wordLEBytes st.1 ++ wordLEBytes st.2.1 ++ wordLEBytes st.2.2.1 ++
        wordLEBytes st.2.2.2).map byteHex).foldr (fun a acc => a ++ acc) [])

/-- `hashlib.md5(s.encode()).hexdigest()[:12]`. -/
def md5Hex12 (s : String) : String :=
  String.mk ((md5Hex (utf8Bytes s)).toList.take 12)

end MD5

namespace Scraping

/-- `BaseNewsSource.create_article`: the shared admission gate.  Returns
`none` (Python `None`) when the input validation or any configured threshold
fails; otherwise the validated `Article`.  `now` models the
`datetime.now(timezone.utc)` instants taken during creation. -/
def create_article (cfg : Config) (source_name : String) (now : Int)
    (title content url method : String) (published_at : Option Int)
    (summary : String) (tweet_metrics : Option TweetMetrics) : Option Article :=
  if content = "" ∨ title = "" ∨ pyLen (pyStrip content) < 10 then none
  else if (pySplit content).length < cfg.min_word_count then none
  else if ((pySplitChar (Char.ofNat 10) content).filter
      (fun p => pyStrip p ≠ "")).length < cfg.min_paragraph_count then none
  else if calculate_quality_score content title tweet_metrics <
      cfg.min_quality_score then none
  else some
    { title := pyStrip title
      content := pyStrip content
      url := url
      source := source_name
      published_at := published_at.getD now
      scraped_at := now
      method := method
      word_count := (pySplit content).length
      paragraph_count := ((pySplitChar (Char.ofNat 10) content).filter
        (fun p => pyStrip p ≠ "")).length
      quality_score := calculate_quality_score content title tweet_metrics
      content_hash := MD5.md5Hex12 content
      summary := if summary ≠ "" then pyTake 200 summary else pyTake 200 content ++ "..."
      topics := if cfg.content_enhancement then extract_topics content title else []
      tweet_metrics := tweet_metrics }

/-- One parsed feed entry as `EnhancedRSSSource.fetch_articles` reads it:
`published` is `entry.get("published_parsed")` as a UTC timestamp (or `none`),
`content` is the result of `_extract_content_advanced(entry)`. -/
structure Entry where
  published : Option Int
  title : String
  link : String
  content : String
  summary : String
  deriving DecidableEq, Repr

/-- The per-entry body of the `fetch_articles` loop: skip entries without a
publish timestamp, skip entries older than the cutoff, and otherwise run the
admission gate on the extracted content. -/
def processEntry (cfg : Config) (source_name : String) (now cutoff : Int)
    (e : Entry) : Option Article :=
  match e.published with
  | none => none
  | some p =>
      if p < cutoff then none
      else if e.content ≠ "" then
        create_article cfg source_name now e.title e.content e.link
          "enhanced_rss" (some p) (pyTake 200 e.summary) none
      else none

/-- `EnhancedRSSSource.fetch_articles` after a successful transport+parse:
empty feeds return no articles, otherwise the first
`max_articles_per_source` entries are filtered through `processEntry`. -/
def fetch_articles_rss_entries (cfg : Config) (source_name : String)
    (now : Int) (entries : List Entry) : List Article :=
  if entries = [] then []
  else
    let cutoff := now - 3600 * cfg.time_window_hours
    (entries.take cfg.max_articles_per_source).filterMap
      (processEntry cfg source_name now cutoff)

/-- `BaseNewsSource.execute_with_retry`: run `op` on successive attempt
indices up to `remaining` times, re-raising the last exception when all
attempts fail.  (Python's `range(0)` edge, `max_retries = 0`, would raise
`None`; the configured `retry_attempts` is always ≥ 1.) -/
def execute_with_retry (op : Nat → Except String α) (attempt : Nat) :
    Nat → Except String α
  | 0 => .error ""
  | 1 => op attempt
  | n + 2 =>
      match op attempt with
      | .ok a => .ok a
      | .error _ => execute_with_retry op (attempt + 1) (n + 1)

/-- `EnhancedRSSSource.fetch_articles` end to end: the transport (`fetch_rss`,
one call per retry attempt) either yields the parsed entries or raises.  The
enclosing `try/except` catches every transport failure, logs it, and returns
the articles accumulated so far — which is the empty list. -/
def fetch_articles_rss (cfg : Config) (source_name : String) (now : Int)
    (transport : Nat → Except String (List Entry)) : List Article :=
  match execute_with_retry transport 0 cfg.retry_attempts with
  | .error _ => []
  | .ok entries => fetch_articles_rss_entries cfg source_name now entries

/-- `SourceResult` with the fields the claims are about.  The wall-clock
diagnostics (`execution_time`, `retry_count`) and `method_used` (chosen via
Python `max` over a `set`, whose tie order is unspecified) are omitted. -/
structure SourceResultL where
  source_name : String
  success : Bool
  articles : List Article
  error_message : String
  reliability_score : ℚ
  deriving DecidableEq, Repr

/-- `ProductionOrchestrator._execute_source_with_monitoring`: a fetch that
returns converts into a success result with the yield-based reliability
score; a fetch that raises converts into a failure result carrying the
exception message. -/
def execute_source_with_monitoring (name : String)
    (fetch : Except String (List Article)) : SourceResultL :=
  match fetch with
  | .ok articles =>
      let expected_baseline : ℚ := if pyStartsWith name "Twitter" then 20 else 5
      { source_name := name
        success := true
        articles := articles
        error_message := ""
        reliability_score := min 1 ((articles.length : ℚ) / expected_baseline) }
  | .error e =>
      { source_name := name
        success := false
        articles := []
        error_message := e
        reliability_score := 0 }

/-- `ProductionOrchestrator.execute_production_aggregation`: drive each
source in order, collecting exactly one `SourceResult` per source.  (The
outer per-source `try/except` appends the same shape of failure result; the
monitoring call already converts every fetch failure, so both layers are the
same conversion.)  A source is its name paired with the outcome of its
`fetch_articles()` call. -/
def execute_production_aggregation
    (sources : List (String × Except String (List Article))) :
    List SourceResultL :=
  sources.map (fun p => execute_source_with_monitoring p.1 p.2)

/-- The merge loop of `main`: concatenate the articles of the successful
results, in report order. -/
def merge_successful (results : List SourceResultL) : List Article :=
  results.foldl (fun acc r => if r.success then acc ++ r.articles else acc) []

/-- Python's tuple comparison for the final sort key: decides
`(b.quality_score, b.published_at) ≤ (a.quality_score, a.published_at)`
lexicographically. -/
def article_key_ge (a b : Article) : Bool :=
  decide (b.quality_score < a.quality_score) ||
    (decide (b.quality_score = a.quality_score) &&
      decide (b.published_at ≤ a.published_at))

/-- One iteration of the dedup loop of
`ProductionOrchestrator.process_and_deduplicate`: scan the working list for
the first existing duplicate; keep the strictly higher-quality version
(`list.remove` drops the first value-equal occurrence, which is the found
one), appending the incoming article when it wins; admit the article at the
end when no duplicate is found. -/
def dedup_step (cfg : Config) (unique : List Article) (article : Article) :
    List Article :=
  match unique.find? (fun ex =>
      is_duplicate cfg article ex (some cfg.similarity_threshold)) with
  | none => unique ++ [article]
  | some ex =>
      if ex.quality_score < article.quality_score then
        unique.erase ex ++ [article]
      else unique

/-- `ProductionOrchestrator.process_and_deduplicate`: pass articles through
unchanged when deduplication is disabled; otherwise run the pairwise dedup
loop and sort the survivors by `(quality_score, published_at)` descending
(Python's stable `list.sort(..., reverse=True)`). -/
def process_and_deduplicate (cfg : Config) (all_articles : List Article) :
    List Article :=
  if cfg.enable_deduplication = false then all_articles
  else stableSortDesc article_key_ge (all_articles.foldl (dedup_step cfg) [])

/-! Concrete fixtures used by witnesses and counterexamples. -/

/-- The production configuration with deduplication switched off. -/
def cfgNoDedup : Config := { defaultConfig with enable_deduplication := false }

/-- A permissive configuration (thresholds relaxed, topic enhancement off). -/
def cfgTiny : Config :=
  { defaultConfig with
      min_word_count := 1
      min_quality_score := 0
      content_enhancement := false }

/-- Three articles sharing one canonical URL, with strictly increasing
quality scores, from three different sources. -/
def artDupA : Article :=
  { title := "alpha one", content := "body text of alpha", url := "https://x.test/a"
    source := "S1", published_at := 100, scraped_at := 150, method := "rss"
    word_count := 20, paragraph_count := 2, quality_score := 1/2
    content_hash := "hashA", summary := "", topics := [], tweet_metrics := none }

def artDupB : Article :=
  { title := "beta two", content := "body text of beta", url := "https://x.test/a"
    source := "S2", published_at := 200, scraped_at := 250, method := "rss"
    word_count := 21, paragraph_count := 2, quality_score := 7/10
    content_hash := "hashB", summary := "", topics := [], tweet_metrics := none }

def artDupC : Article :=
  { title := "gamma three", content := "body text of gamma", url := "https://x.test/a"
    source := "S3", published_at := 300, scraped_at := 350, method := "rss"
    word_count := 22, paragraph_count := 2, quality_score := 9/10
    content_hash := "hashC", summary := "", topics := [], tweet_metrics := none }

/-- Two unrelated articles used as the yield of healthy sources. -/
def artOther1 : Article :=
  { title := "delta four", content := "body text of delta", url := "https://y.test/1"
    source := "GoodSource1", published_at := 400, scraped_at := 450, method := "rss"
    word_count := 23, paragraph_count := 2, quality_score := 3/10
    content_hash := "hashD", summary := "", topics := [], tweet_metrics := none }

def artOther2 : Article :=
  { title := "epsilon five", content := "body text of epsilon", url := "https://y.test/2"
    source := "GoodSource2", published_at := 500, scraped_at := 550, method := "rss"
    word_count := 24, paragraph_count := 2, quality_score := 4/10
    content_hash := "hashE", summary := "", topics := [], tweet_metrics := none }

/-- A crypto-heavy article body that clears every default admission gate. -/
def goodContent : String :=
  "bitcoin ethereum crypto blockchain defi nft trading market price exchange wallet mining staking yield liquidity"

/-- A feed entry published inside the window (at second 10, `now = 0` being
the reference run instant with a 24-hour window). -/
def goodEntry : Entry :=
  { published := some 10, title := "Bitcoin rally", link := "https://n.test/good"
    content := goodContent, summary := "" }

/-- A feed entry whose publish timestamp lies one hour in the future of the
run instant `now = 0`. -/
def futureEntry : Entry :=
  { published := some 3600, title := "Bitcoin rally", link := "https://n.test/future"
    content := goodContent, summary := "" }

/-- The single article the RSS loop admits from `[goodEntry]` at `now = 0`. -/
def wArticle : Article :=
  (fetch_articles_rss_entries defaultConfig "CoinDesk" 0 [goodEntry]).head
    (by apply of_decide_eq_true; with_unfolding_all rfl)

/-- Article created from the raw content `"abcdefghij"`. -/
def wHashA : Article :=
  (create_article cfgTiny "A" 0 "some title" "abcdefghij" "u1" "m" none "" none).get
    (by apply of_decide_eq_true; with_unfolding_all rfl)

/-- Article created from the raw content `" abcdefghij "` — same stored body
as `wHashA` after stripping, different raw bytes. -/
def wHashB : Article :=
  (create_article cfgTiny "B" 0 "other title" " abcdefghij " "u2" "m" none "" none).get
    (by apply of_decide_eq_true; with_unfolding_all rfl)

/-- Article created from the raw content `"abcdefghij"` by a different
source, title, url, method and at different instants. -/
def wHashC : Article :=
  (create_article cfgTiny "C" 5 "third title" "abcdefghij" "u3" "m2" (some 7)
    "" none).get (by apply of_decide_eq_true; with_unfolding_all rfl)

/-- A transport that raises on every attempt. -/
def failTransport : Nat → Except String (List Entry) :=
  fun _ => .error "Connection refused"

end Scraping

namespace Scraping

/-! ### Lemmas about the stable descending sort -/

theorem mem_stableInsertDesc {α : Type _} {ge : α → α → Bool} {a x : α}
    {l : List α} : x ∈ stableInsertDesc ge a l ↔ x = a ∨ x ∈ l := by
  induction l with
  | nil => simp [stableInsertDesc]
  | cons b l ih =>
      by_cases h : ge a b = true
      · simp [stableInsertDesc, h, ih, List.mem_cons]
      · simp [stableInsertDesc, h, ih, List.mem_cons]
        tauto

theorem pairwise_stableInsertDesc {α : Type _} {ge : α → α → Bool}
    (htrans : ∀ x y z, ge x y = true → ge y z = true → ge x z = true)
    (htot : ∀ x y, ge x y = true ∨ ge y x = true)
    {a : α} {l : List α} (h : l.Pairwise (fun x y => ge x y = true)) :
    (stableInsertDesc ge a l).Pairwise (fun x y => ge x y = true) := by
  induction l with
  | nil => simp [stableInsertDesc]
  | cons b l ih =>
      rw [List.pairwise_cons] at h
      obtain ⟨hb, hl⟩ := h
      by_cases hab : ge a b = true
      · rw [stableInsertDesc, if_pos hab]
        refine List.pairwise_cons.2 ⟨?_, List.pairwise_cons.2 ⟨hb, hl⟩⟩
        intro y hy
        rcases List.mem_cons.1 hy with rfl | hyl
        · exact hab
        · exact htrans a b y hab (hb y hyl)
      · rw [stableInsertDesc, if_neg hab]
        refine List.pairwise_cons.2 ⟨?_, ih hl⟩
        intro y hy
        rcases mem_stableInsertDesc.1 hy with rfl | hyl
        · exact (htot y b).resolve_left hab
        · exact hb y hyl

theorem pairwise_stableSortDesc {α : Type _} {ge : α → α → Bool}
    (htrans : ∀ x y z, ge x y = true → ge y z = true → ge x z = true)
    (htot : ∀ x y, ge x y = true ∨ ge y x = true) (l : List α) :
    (stableSortDesc ge l).Pairwise (fun x y => ge x y = true) := by
  induction l with
  | nil => exact List.Pairwise.nil
  | cons a l ih => exact pairwise_stableInsertDesc htrans htot ih

theorem filter_stableInsertDesc_neg {α : Type _} {ge : α → α → Bool}
    {p : α → Bool} {a : α} (hpa : p a = false) (l : List α) :
    (stableInsertDesc ge a l).filter p = l.filter p := by
  induction l with
  | nil => simp [stableInsertDesc, hpa]
  | cons b l ih =>
      by_cases hab : ge a b = true <;>
        simp [stableInsertDesc, hab, List.filter_cons, hpa, ih]

theorem filter_stableInsertDesc_pos {α : Type _} {ge : α → α → Bool}
    {p : α → Bool} {a : α} (hpa : p a = true)
    (hskip : ∀ b, ge a b = false → p b = false) (l : List α) :
    (stableInsertDesc ge a l).filter p = a :: l.filter p := by
  induction l with
  | nil => simp [stableInsertDesc, hpa]
  | cons b l ih =>
      by_cases hab : ge a b = true
      · simp [stableInsertDesc, hab, List.filter_cons, hpa]
      · have hpb : p b = false := hskip b (Bool.not_eq_true _ ▸ hab)
        simp [stableInsertDesc, hab, List.filter_cons, hpa, hpb, ih]

/-- Stability of the sort, phrased per key level: the elements satisfying a
predicate closed under the "not below" relation keep their exact relative
order (Python's `sorted` stability guarantee). -/
theorem filter_stableSortDesc {α : Type _} {ge : α → α → Bool} {p : α → Bool}
    (H : ∀ x y, p x = true → ge x y = false → p y = false) (l : List α) :
    (stableSortDesc ge l).filter p = l.filter p := by
  induction l with
  | nil => rfl
  | cons a l ih =>
      by_cases hpa : p a = true
      · rw [stableSortDesc, filter_stableInsertDesc_pos hpa (fun y => H a y hpa),
          ih, List.filter_cons, if_pos hpa]
      · have hpa' : p a = false := Bool.not_eq_true _ ▸ hpa
        rw [stableSortDesc, filter_stableInsertDesc_neg hpa', ih,
          List.filter_cons, if_neg (by simp [hpa'])]

/-! ### Bounds of the quality-score components -/

theorem minCap_nonneg {x c : ℚ} (hx : 0 ≤ x) (hc : 0 ≤ c) :
    0 ≤ min x 1 * c :=
  mul_nonneg (le_min hx zero_le_one) hc

theorem length_score_nonneg (wc : Nat) : 0 ≤ length_score wc :=
  minCap_nonneg (by positivity) (by norm_num)

theorem relevance_score_nonneg (ws : List String) : 0 ≤ relevance_score ws := by
  unfold relevance_score
  have h := fun (k : Nat) (d : ℚ) (hd : (0:ℚ) < d) (c : ℚ) (hc : (0:ℚ) ≤ c) =>
    minCap_nonneg (x := (k : ℚ) / d) (by positivity) hc
  refine add_nonneg (add_nonneg (add_nonneg ?_ ?_) ?_) ?_ <;>
    exact h _ _ (by norm_num) _ (by norm_num)

theorem structure_score_nonneg (wc : Nat) : 0 ≤ structure_score wc := by
  unfold structure_score
  refine add_nonneg (add_nonneg (by norm_num) ?_) ?_ <;> split <;> norm_num

theorem depth_score_nonneg (ws : List String) (m : Option TweetMetrics) :
    0 ≤ depth_score ws m := by
  unfold depth_score
  cases m with
  | none => exact minCap_nonneg (by positivity) (by norm_num)
  | some mm => exact minCap_nonneg (by positivity) (by norm_num)

theorem calculate_quality_score_bounds (content title : String)
    (m : Option TweetMetrics) :
    0 ≤ calculate_quality_score content title m ∧
      calculate_quality_score content title m ≤ 1 := by
  by_cases hc : content = ""
  · simp [calculate_quality_score, hc]
  · have h0 : calculate_quality_score content title m =
        min (length_score (pySplit (pyLower (title ++ " " ++ content))).length +
          relevance_score (pySplit (pyLower (title ++ " " ++ content))) +
          structure_score (pySplit (pyLower (title ++ " " ++ content))).length +
          depth_score (pySplit (pyLower (title ++ " " ++ content))) m) 1 := by
      simp [calculate_quality_score, hc]
    rw [h0]
    refine ⟨le_min ?_ zero_le_one, min_le_right _ _⟩
    exact add_nonneg (add_nonneg (add_nonneg (length_score_nonneg _)
      (relevance_score_nonneg _)) (structure_score_nonneg _))
      (depth_score_nonneg _ _)

/-! ### Claim theorems -/

/-- **C6**: for all inputs (content string, optional title string, optional
engagement-metrics map), `ContentAnalyzer.calculate_quality_score` returns a
value `v` with `0.0 ≤ v ≤ 1.0`. -/
theorem quality_score_bounded (content title : String)
    (m : Option TweetMetrics) :
    0 ≤ calculate_quality_score content title m ∧
      calculate_quality_score content title m ≤ 1 :=
  calculate_quality_score_bounds content title m

/-- **C10**: when `enable_deduplication` is false,
`ProductionOrchestrator.process_and_deduplicate` returns its input list
exactly unchanged — no duplicate removal and no sorting, so the final corpus
equals the merged per-source results in fetch order. -/
theorem process_and_deduplicate_disabled (cfg : Config) (arts : List Article)
    (h : cfg.enable_deduplication = false) :
    process_and_deduplicate cfg arts = arts := by
  simp [process_and_deduplicate, h]

/-- Witness for C10 at a concrete configuration and corpus. -/
theorem process_and_deduplicate_disabled_witness :
    cfgNoDedup.enable_deduplication = false ∧
      process_and_deduplicate cfgNoDedup [artDupA, artDupB, artDupC] =
        [artDupA, artDupB, artDupC] :=
  ⟨rfl, process_and_deduplicate_disabled cfgNoDedup _ rfl⟩

theorem article_key_ge_trans (x y z : Article)
    (hxy : article_key_ge x y = true) (hyz : article_key_ge y z = true) :
    article_key_ge x z = true := by
  simp only [article_key_ge, Bool.or_eq_true, Bool.and_eq_true,
    decide_eq_true_eq] at *
  rcases hxy with h1 | ⟨h1, h1p⟩ <;> rcases hyz with h2 | ⟨h2, h2p⟩
  · exact Or.inl (h2.trans h1)
  · exact Or.inl (h2 ▸ h1)
  · exact Or.inl (h1 ▸ h2)
  · exact Or.inr ⟨h2.trans h1, h2p.trans h1p⟩

theorem article_key_ge_total (x y : Article) :
    article_key_ge x y = true ∨ article_key_ge y x = true := by
  simp only [article_key_ge, Bool.or_eq_true, Bool.and_eq_true,
    decide_eq_true_eq]
  rcases lt_trichotomy y.quality_score x.quality_score with h | h | h
  · exact Or.inl (Or.inl h)
  · rcases le_total y.published_at x.published_at with hp | hp
    · exact Or.inl (Or.inr ⟨h, hp⟩)
    · exact Or.inr (Or.inr ⟨h.symm, hp⟩)
  · exact Or.inr (Or.inl h)

/-- **C3**: after the global dedup pass, the returned corpus is sorted by
`(quality_score desc, published_at desc)`: for every pair of adjacent items
the earlier item's quality score is ≥ the later one's, and when the scores
are equal the earlier item's publish timestamp is ≥ the later one's. -/
theorem final_corpus_sorted (cfg : Config) (arts : List Article)
    (h : cfg.enable_deduplication = true) :
    (process_and_deduplicate cfg arts).Chain' (fun a b =>
      b.quality_score ≤ a.quality_score ∧
        (a.quality_score = b.quality_score → b.published_at ≤ a.published_at)) := by
  have hp : (process_and_deduplicate cfg arts).Pairwise
      (fun a b => article_key_ge a b = true) := by
    rw [process_and_deduplicate, if_neg (by simp [h])]
    exact pairwise_stableSortDesc article_key_ge_trans article_key_ge_total _
  refine List.Pairwise.chain' (hp.imp ?_)
  intro a b hab
  simp only [article_key_ge, Bool.or_eq_true, Bool.and_eq_true,
    decide_eq_true_eq] at hab
  rcases hab with h1 | ⟨h1, h1p⟩
  · exact ⟨h1.le, fun heq => absurd (heq ▸ h1) (lt_irrefl _)⟩
  · exact ⟨h1.le, fun _ => h1p⟩

/-- Witness for C3 at a concrete configuration and corpus. -/
theorem final_corpus_sorted_witness :
    defaultConfig.enable_deduplication = true ∧
      (process_and_deduplicate defaultConfig [artOther1, artOther2, artDupA]).Chain'
        (fun a b => b.quality_score ≤ a.quality_score ∧
          (a.quality_score = b.quality_score → b.published_at ≤ a.published_at)) :=
  ⟨rfl, final_corpus_sorted defaultConfig _ rfl⟩

theorem jaccard_comm (s t : Finset String) : jaccard s t = jaccard t s := by
  rw [jaccard, jaccard, Finset.inter_comm, Finset.union_comm]

theorem titleSimilarity?_comm (t1 t2 : String) :
    titleSimilarity? t1 t2 = titleSimilarity? t2 t1 := by
  unfold titleSimilarity?
  by_cases h1 : (titleWordSet t1).Nonempty <;>
    by_cases h2 : (titleWordSet t2).Nonempty <;>
      simp [h1, h2, jaccard_comm]

/-- **C7**: `ContentAnalyzer.is_duplicate` is symmetric — for all article
pairs and every similarity threshold,
`isDuplicate(a, b) == isDuplicate(b, a)`. -/
theorem is_duplicate_symmetric (cfg : Config) (th : Option ℚ) (a b : Article) :
    is_duplicate cfg a b th = is_duplicate cfg b a th := by
  unfold is_duplicate
  rw [titleSimilarity?_comm]
  by_cases hu : a.url = b.url
  · rw [if_pos hu, if_pos hu.symm]
  · have hu' : ¬ b.url = a.url := fun h => hu h.symm
    rw [if_neg hu, if_neg hu']
    by_cases hh : a.content_hash = b.content_hash
    · rw [if_pos hh, if_pos hh.symm]
    · have hh' : ¬ b.content_hash = a.content_hash := fun h => hh h.symm
      rw [if_neg hh, if_neg hh']
      rw [abs_sub_comm a.published_at b.published_at]
      cases hsim : titleSimilarity? b.title a.title with
      | none =>
          by_cases hs : a.source = b.source
          · simp [hs]
          · have hs' : ¬ b.source = a.source := fun h => hs h.symm
            simp [hs, hs']
      | some s =>
          by_cases hC : (th.getD cfg.similarity_threshold) < s
          · simp [hC]
          · by_cases hs : a.source = b.source
            · simp [hC, hs]
            · have hs' : ¬ b.source = a.source := fun h => hs h.symm
              simp [hC, hs, hs']

theorem topicGE_trans (x y z : String × Nat) (hxy : topicGE x y = true)
    (hyz : topicGE y z = true) : topicGE x z = true := by
  simp only [topicGE, decide_eq_true_eq] at *
  exact hyz.trans hxy

theorem topicGE_total (x y : String × Nat) :
    topicGE x y = true ∨ topicGE y x = true := by
  simp only [topicGE, decide_eq_true_eq]
  exact Nat.le_total y.2 x.2

theorem topicScore_eq_weighted (content title : String) (kws : List String) :
    topicScore content title kws =
      2 * (kws.filter (fun kw => pyIn kw (pyLower (title ++ " " ++ content)) &&
            pyIn kw (pyLower title))).length +
        (kws.filter (fun kw => pyIn kw (pyLower (title ++ " " ++ content)) &&
            !(pyIn kw (pyLower title)))).length := by
  unfold topicScore
  induction kws with
  | nil => rfl
  | cons k ks ih =>
      simp only [List.map_cons, List.sum_cons, List.filter_cons] at *
      by_cases h1 : pyIn k (pyLower (title ++ " " ++ content)) = true <;>
        by_cases h2 : pyIn k (pyLower title) = true <;>
          simp [h1, h2, ih] <;> ring

/-- **C9**: `ContentAnalyzer.extract_topics` returns at most 5 topics out of
the 12-topic taxonomy; the returned prefix comes from the stable descending
sort of the positively scored topics (so scores are non-increasing and equal
scores stay in taxonomy declaration order), and each topic's score counts a
keyword hitting the title as 2 and a keyword hitting only the body as 1. -/
theorem extract_topics_spec (content title : String) :
    (extract_topics content title).length ≤ 5 ∧
    topic_patterns.length = 12 ∧
    extract_topics content title =
      ((stableSortDesc topicGE (scoredTopics content title)).take 5).map
        Prod.fst ∧
    (stableSortDesc topicGE (scoredTopics content title)).Pairwise
      (fun a b => b.2 ≤ a.2) ∧
    (∀ v : Nat, (stableSortDesc topicGE (scoredTopics content title)).filter
        (fun x => x.2 == v) =
      (scoredTopics content title).filter (fun x => x.2 == v)) ∧
    (∀ kws : List String, topicScore content title kws =
      2 * (kws.filter (fun kw => pyIn kw (pyLower (title ++ " " ++ content)) &&
            pyIn kw (pyLower title))).length +
        (kws.filter (fun kw => pyIn kw (pyLower (title ++ " " ++ content)) &&
            !(pyIn kw (pyLower title)))).length) := by
  refine ⟨?_, rfl, rfl, ?_, ?_, topicScore_eq_weighted content title⟩
  · rw [extract_topics, List.length_map, List.length_take]
    exact min_le_left _ _
  · refine (pairwise_stableSortDesc topicGE_trans topicGE_total _).imp ?_
    intro a b hab
    simpa [topicGE] using hab
  · intro v
    refine filter_stableSortDesc ?_ _
    intro x y hx hxy
    simp only [beq_iff_eq] at hx
    simp only [beq_eq_false_iff_ne, ne_eq]
    simp only [topicGE, decide_eq_false_iff_not, not_le] at hxy
    omega

/-- Inversion of the shared admission gate: a created article records the
derived metrics, passed every configured threshold, and carries the hash of
the raw (unstripped) content. -/
theorem create_article_gates {cfg : Config} {sn : String} {now : Int}
    {title content url method : String} {pub : Option Int} {summ : String}
    {tm : Option TweetMetrics} {a : Article}
    (h : create_article cfg sn now title content url method pub summ tm =
      some a) :
    cfg.min_word_count ≤ a.word_count ∧
    cfg.min_paragraph_count ≤ a.paragraph_count ∧
    cfg.min_quality_score ≤ a.quality_score ∧
    0 ≤ a.quality_score ∧ a.quality_score ≤ 1 ∧
    a.published_at = pub.getD now ∧ a.scraped_at = now ∧
    a.content = pyStrip content ∧ a.content_hash = MD5.md5Hex12 content := by
  unfold create_article at h
  by_cases h0 : content = "" ∨ title = "" ∨ pyLen (pyStrip content) < 10
  · rw [if_pos h0] at h
    exact absurd h (by simp)
  · rw [if_neg h0] at h
    by_cases h1 : (pySplit content).length < cfg.min_word_count
    · rw [if_pos h1] at h
      exact absurd h (by simp)
    · rw [if_neg h1] at h
      by_cases h2 : ((pySplitChar (Char.ofNat 10) content).filter
          (fun p => pyStrip p ≠ "")).length < cfg.min_paragraph_count
      · rw [if_pos h2] at h
        exact absurd h (by simp)
      · rw [if_neg h2] at h
        by_cases h3 : calculate_quality_score content title tm <
            cfg.min_quality_score
        · rw [if_pos h3] at h
          exact absurd h (by simp)
        · rw [if_neg h3] at h
          obtain rfl := Option.some.inj h
          refine ⟨Nat.le_of_not_lt h1, Nat.le_of_not_lt h2,
            le_of_not_lt h3, (calculate_quality_score_bounds _ _ _).1,
            (calculate_quality_score_bounds _ _ _).2, rfl, rfl, rfl, rfl⟩

/-- Membership in the RSS fetch output comes from a successful
`processEntry`, hence from a successful `create_article`. -/
theorem mem_fetch_articles_rss_entries {cfg : Config} {sn : String}
    {now : Int} {entries : List Entry} {a : Article}
    (ha : a ∈ fetch_articles_rss_entries cfg sn now entries) :
    ∃ e ∈ entries, ∃ p, e.published = some p ∧
      ¬ p < now - 3600 * cfg.time_window_hours ∧
      create_article cfg sn now e.title e.content e.link "enhanced_rss"
        (some p) (pyTake 200 e.summary) none = some a := by
  unfold fetch_articles_rss_entries at ha
  split at ha
  · exact absurd ha (by simp)
  · obtain ⟨e, he, hpe⟩ := List.mem_filterMap.1 ha
    refine ⟨e, List.mem_of_mem_take he, ?_⟩
    unfold processEntry at hpe
    cases hp : e.published with
    | none =>
        rw [hp] at hpe
        exact absurd hpe (by simp)
    | some p =>
        rw [hp] at hpe
        replace hpe : (if p < now - 3600 * cfg.time_window_hours then none
            else if e.content ≠ "" then
              create_article cfg sn now e.title e.content e.link
                "enhanced_rss" (some p) (pyTake 200 e.summary) none
            else none) = some a := hpe
        by_cases hcut : p < now - 3600 * cfg.time_window_hours
        · rw [if_pos hcut] at hpe
          exact absurd hpe (by simp)
        · rw [if_neg hcut] at hpe
          by_cases hcne : e.content ≠ ""
          · rw [if_pos hcne] at hpe
            exact ⟨p, rfl, hcut, hpe⟩
          · rw [if_neg hcne] at hpe
            exact absurd hpe (by simp)

/-- **C5**: every item the RSS source's fetch returns satisfies the
configured word-count, paragraph-count and quality minimums, with the
quality score in [0, 1] — under-threshold candidates were silently dropped
by the shared `create_article` admission gate, never returned. -/
theorem admission_gates_hold (cfg : Config) (sn : String) (now : Int)
    (entries : List Entry) (a : Article)
    (ha : a ∈ fetch_articles_rss_entries cfg sn now entries) :
    cfg.min_word_count ≤ a.word_count ∧
    cfg.min_paragraph_count ≤ a.paragraph_count ∧
    cfg.min_quality_score ≤ a.quality_score ∧
    0 ≤ a.quality_score ∧ a.quality_score ≤ 1 := by
  obtain ⟨e, _, p, _, _, hc⟩ := mem_fetch_articles_rss_entries ha
  obtain ⟨h1, h2, h3, h4, h5, _⟩ := create_article_gates hc
  exact ⟨h1, h2, h3, h4, h5⟩

/-- Witness for C5 at a concrete feed. -/
theorem admission_gates_hold_witness :
    wArticle ∈ fetch_articles_rss_entries defaultConfig "CoinDesk" 0 [goodEntry] ∧
      defaultConfig.min_word_count ≤ wArticle.word_count ∧
      defaultConfig.min_paragraph_count ≤ wArticle.paragraph_count ∧
      defaultConfig.min_quality_score ≤ wArticle.quality_score ∧
      0 ≤ wArticle.quality_score ∧ wArticle.quality_score ≤ 1 := by
  have hm : wArticle ∈
      fetch_articles_rss_entries defaultConfig "CoinDesk" 0 [goodEntry] :=
    List.head_mem _
  exact ⟨hm, admission_gates_hold defaultConfig "CoinDesk" 0 [goodEntry]
    wArticle hm⟩

/-- Counterexample to **C2** as stated: a feed entry published one hour in
the future of the run instant (`now = 0`, `windowEnd = now`) is admitted by
the RSS loop — the code only filters `published_dt < cutoff_time` — so the
resulting item has `publishedAt > windowEnd` and `publishedAt > fetchedAt`. -/
theorem time_window_counterexample :
    (fetch_articles_rss_entries defaultConfig "CoinDesk" 0 [futureEntry]).map
        (fun a => (a.published_at, a.scraped_at)) = [(3600, 0)] ∧
      ¬ ((3600 : Int) ≤ 0) := by
  constructor
  · apply of_decide_eq_true; with_unfolding_all rfl
  · decide

/-- **C2 (amended)**: every admitted item satisfies the lower window bound
`windowStart ≤ publishedAt` (entries older than `now − windowHours` are
skipped), and `fetchedAt` is the admission instant; the upper bound
`publishedAt ≤ windowEnd` and `publishedAt ≤ fetchedAt` are not enforced —
an entry with a future publish timestamp passes the filter. -/
theorem time_window_lower_bound (cfg : Config) (sn : String) (now : Int)
    (entries : List Entry) (a : Article)
    (ha : a ∈ fetch_articles_rss_entries cfg sn now entries) :
    now - 3600 * cfg.time_window_hours ≤ a.published_at ∧
      a.scraped_at = now := by
  obtain ⟨e, _, p, _, hcut, hc⟩ := mem_fetch_articles_rss_entries ha
  obtain ⟨_, _, _, _, _, hpub, hscr, _⟩ := create_article_gates hc
  rw [hpub, hscr]
  exact ⟨Int.not_lt.mp hcut, rfl⟩

/-- Witness for the amended C2 at a concrete feed. -/
theorem time_window_lower_bound_witness :
    wArticle ∈ fetch_articles_rss_entries defaultConfig "CoinDesk" 0 [goodEntry] ∧
      (0 : Int) - 3600 * defaultConfig.time_window_hours ≤ wArticle.published_at ∧
      wArticle.scraped_at = 0 := by
  have hm : wArticle ∈
      fetch_articles_rss_entries defaultConfig "CoinDesk" 0 [goodEntry] :=
    List.head_mem _
  exact ⟨hm, time_window_lower_bound defaultConfig "CoinDesk" 0 [goodEntry]
    wArticle hm⟩

/-- Counterexample to **C4** as stated: with three same-URL articles of
strictly increasing quality, the pass judges the second a duplicate of the
first (and keeps the second), then judges the third a duplicate of the
second — so the second, the strictly higher-quality item of the first
judged pair, does **not** survive in the output. -/
theorem dedup_survivor_counterexample :
    is_duplicate defaultConfig artDupB artDupA
        (some defaultConfig.similarity_threshold) = true ∧
    artDupA.quality_score < artDupB.quality_score ∧
    process_and_deduplicate defaultConfig [artDupA, artDupB, artDupC] =
      [artDupC] ∧
    artDupB ∉ process_and_deduplicate defaultConfig
      [artDupA, artDupB, artDupC] := by
  refine ⟨?_, ?_, ?_, ?_⟩ <;> (apply of_decide_eq_true; with_unfolding_all rfl)

/-- **C4 (amended)**: at each duplicate judgment — the incoming article
against the first working-list article `is_duplicate` flags — the working
list keeps the strictly higher-quality item and discards the other, a
quality tie keeping the earlier-discovered (existing) item; a kept item may
itself be discarded by a later judgment, so it need not survive in the final
output. -/
theorem dedup_step_keeps_higher (cfg : Config) (unique : List Article)
    (article ex : Article)
    (hfind : unique.find? (fun e =>
      is_duplicate cfg article e (some cfg.similarity_threshold)) = some ex)
    (hnd : unique.Nodup) :
    (ex.quality_score < article.quality_score →
      dedup_step cfg unique article = unique.erase ex ++ [article] ∧
        ex ∉ unique.erase ex) ∧
    (¬ ex.quality_score < article.quality_score →
      dedup_step cfg unique article = unique) := by
  constructor
  · intro hq
    rw [dedup_step, hfind]
    exact ⟨if_pos hq, hnd.not_mem_erase⟩
  · intro hq
    rw [dedup_step, hfind]
    exact if_neg hq

/-- Witness for the amended C4 at a concrete judgment. -/
theorem dedup_step_keeps_higher_witness :
    dedup_step defaultConfig [artDupA] artDupB =
        [artDupA].erase artDupA ++ [artDupB] ∧
      artDupA ∉ [artDupA].erase artDupA :=
  (dedup_step_keeps_higher defaultConfig [artDupA] artDupB artDupA
      (by apply of_decide_eq_true; with_unfolding_all rfl)
      (by apply of_decide_eq_true; with_unfolding_all rfl)).1
    (by apply of_decide_eq_true; with_unfolding_all rfl)

set_option maxRecDepth 40000 in
/-- Counterexample to **C8** as stated: two `create_article` calls whose raw
contents differ only by surrounding whitespace produce items with identical
stored bodies but different `content_hash` values — the hash is taken of the
raw content while the stored body is the stripped content. -/
theorem content_hash_counterexample :
    create_article cfgTiny "A" 0 "some title" "abcdefghij" "u1" "m" none ""
        none = some wHashA ∧
    create_article cfgTiny "B" 0 "other title" " abcdefghij " "u2" "m" none ""
        none = some wHashB ∧
    wHashA.content = wHashB.content ∧
    wHashA.content_hash ≠ wHashB.content_hash := by
  refine ⟨(Option.some_get _).symm, (Option.some_get _).symm, ?_, ?_⟩ <;>
    (apply of_decide_eq_true; with_unfolding_all rfl)

/-- **C8 (amended)**: `content_hash` is `md5(raw content)[:12]` — a
deterministic function of the raw `content` argument alone, independent of
the source, configuration and every other field; since the stored body is
the stripped raw content, equality of stored bodies does not imply equality
of hashes (see the counterexample), but equality of raw contents does. -/
theorem content_hash_deterministic_in_raw
    (cfg cfg' : Config) (sn sn' : String) (now now' : Int)
    (title title' content url url' method method' : String)
    (pub pub' : Option Int) (summ summ' : String)
    (tm tm' : Option TweetMetrics) (a a' : Article)
    (h : create_article cfg sn now title content url method pub summ tm =
      some a)
    (h' : create_article cfg' sn' now' title' content url' method' pub' summ'
      tm' = some a') :
    a.content_hash = a'.content_hash ∧
      a.content_hash = MD5.md5Hex12 content := by
  obtain ⟨_, _, _, _, _, _, _, _, hh⟩ := create_article_gates h
  obtain ⟨_, _, _, _, _, _, _, _, hh'⟩ := create_article_gates h'
  exact ⟨hh.trans hh'.symm, hh⟩

/-- Witness for the amended C8: same raw content through two different
sources, titles, urls, configs and instants gives the same hash. -/
theorem content_hash_deterministic_in_raw_witness :
    wHashA.content_hash = wHashC.content_hash ∧
      wHashA.content_hash = MD5.md5Hex12 "abcdefghij" :=
  content_hash_deterministic_in_raw cfgTiny cfgTiny "A" "C" 0 5 "some title"
    "third title" "abcdefghij" "u1" "u3" "m" "m2" none (some 7) "" "" none
    none wHashA wHashC (Option.some_get _).symm (Option.some_get _).symm

theorem monitor_source_name (name : String)
    (f : Except String (List Article)) :
    (execute_source_with_monitoring name f).source_name = name := by
  cases f <;> rfl

theorem foldl_merge_acc (results : List SourceResultL) (acc : List Article) :
    results.foldl (fun acc r => if r.success then acc ++ r.articles else acc)
        acc =
      acc ++ results.foldl
        (fun acc r => if r.success then acc ++ r.articles else acc) [] := by
  induction results generalizing acc with
  | nil => simp
  | cons r rs ih =>
      rw [List.foldl_cons, List.foldl_cons, ih,
        ih (if r.success = true then [] ++ r.articles else [])]
      by_cases h : r.success = true <;> simp [h]

theorem mem_merge_successful {a : Article} {results : List SourceResultL} :
    a ∈ merge_successful results ↔
      ∃ r ∈ results, r.success = true ∧ a ∈ r.articles := by
  induction results with
  | nil => simp [merge_successful]
  | cons r rs ih =>
      rw [merge_successful, List.foldl_cons, foldl_merge_acc]
      rw [merge_successful] at ih
      by_cases h : r.success = true <;> simp [h, ih]

theorem filter_monitor_of_ne (n : String)
    (l : List (String × Except String (List Article)))
    (hl : ∀ p ∈ l, p.1 ≠ n) :
    ((l.map (fun p => execute_source_with_monitoring p.1 p.2)).filter
      (fun r => r.source_name == n)) = [] := by
  induction l with
  | nil => rfl
  | cons p ps ih =>
      have hfalse :
          ((execute_source_with_monitoring p.1 p.2).source_name == n) =
            false := by
        rw [monitor_source_name]
        exact beq_eq_false_iff_ne.2 (hl p (List.mem_cons_self p ps))
      simp only [List.map_cons, List.filter_cons, hfalse, Bool.false_eq_true,
        if_false]
      exact ih (fun q hq => hl q (List.mem_cons_of_mem p hq))

/-- Counterexample to **C1** as stated: `EnhancedRSSSource.fetch_articles`
catches every transport exception internally and returns the empty list, so
a Source whose transport raises on every attempt is reported with
`success == true` and an empty error message — not `success == false`. -/
theorem failure_isolation_counterexample :
    fetch_articles_rss defaultConfig "CoinDesk" 0 failTransport = [] ∧
    (execute_production_aggregation
        [("GoodSource1", Except.ok [artOther1]),
         ("CoinDesk", Except.ok
           (fetch_articles_rss defaultConfig "CoinDesk" 0 failTransport)),
         ("GoodSource2", Except.ok [artOther2])]).map
        (fun r => (r.source_name, r.success, r.error_message)) =
      [("GoodSource1", true, ""), ("CoinDesk", true, ""),
       ("GoodSource2", true, "")] := by
  constructor <;> (apply of_decide_eq_true; with_unfolding_all rfl)

/-- **C1 (amended)**: for a Source whose `fetch_articles()` call itself
raises, the run completes with exactly one `SourceResult` for that Source —
`success == false`, empty articles, the exception message recorded — and the
merged pool still contains every item of every successful other Source.
(Concrete sources such as `EnhancedRSSSource` catch transport failures
internally and instead report `success == true` with zero articles; see the
counterexample.) -/
theorem failure_isolation_amended
    (pre post : List (String × Except String (List Article))) (n e : String)
    (hn : ∀ p ∈ pre ++ post, p.1 ≠ n) :
    (execute_production_aggregation (pre ++ (n, Except.error e) :: post)).filter
        (fun r => r.source_name == n) =
      [{ source_name := n, success := false, articles := [],
         error_message := e, reliability_score := 0 }] ∧
    (execute_production_aggregation (pre ++ (n, Except.error e) :: post)).length =
      pre.length + 1 + post.length ∧
    (∀ p ∈ pre ++ post, ∀ arts, p.2 = Except.ok arts → ∀ a ∈ arts,
      a ∈ merge_successful
        (execute_production_aggregation (pre ++ (n, Except.error e) :: post))) := by
  refine ⟨?_, ?_, ?_⟩
  · rw [execute_production_aggregation, List.map_append, List.map_cons,
      List.filter_append, List.filter_cons]
    rw [filter_monitor_of_ne n pre (fun p hp => hn p (List.mem_append_left _ hp)),
      filter_monitor_of_ne n post (fun p hp => hn p (List.mem_append_right _ hp))]
    simp [execute_source_with_monitoring]
  · simp [execute_production_aggregation]
    omega
  · intro p hp arts harts a ha
    refine mem_merge_successful.2
      ⟨execute_source_with_monitoring p.1 p.2, ?_, ?_, ?_⟩
    · rw [execute_production_aggregation]
      refine List.mem_map_of_mem _ ?_
      rcases List.mem_append.1 hp with h | h
      · exact List.mem_append_left _ h
      · exact List.mem_append_right _ (List.mem_cons_of_mem _ h)
    · rw [harts]
      rfl
    · rw [harts]
      simpa using ha

/-- Witness for the amended C1 at a concrete three-source run. -/
theorem failure_isolation_amended_witness :
    (execute_production_aggregation
        [("GoodSource1", Except.ok [artOther1]), ("Bad", Except.error "boom"),
         ("GoodSource2", Except.ok [artOther2])]).filter
        (fun r => r.source_name == "Bad") =
      [{ source_name := "Bad", success := false, articles := [],
         error_message := "boom", reliability_score := 0 }] ∧
    (execute_production_aggregation
        [("GoodSource1", Except.ok [artOther1]), ("Bad", Except.error "boom"),
         ("GoodSource2", Except.ok [artOther2])]).length = 1 + 1 + 1 ∧
    (∀ p ∈ ([("GoodSource1", Except.ok [artOther1]),
        ("GoodSource2", Except.ok [artOther2])] :
          List (String × Except String (List Article))),
      ∀ arts, p.2 = Except.ok arts → ∀ a ∈ arts,
      a ∈ merge_successful (execute_production_aggregation
        [("GoodSource1", Except.ok [artOther1]), ("Bad", Except.error "boom"),
         ("GoodSource2", Except.ok [artOther2])])) :=
  failure_isolation_amended [("GoodSource1", Except.ok [artOther1])]
    [("GoodSource2", Except.ok [artOther2])] "Bad" "boom"
    (by apply of_decide_eq_true; with_unfolding_all rfl)

end Scraping